import Mathlib

/- Shallow embedding of the buy-vs-rent calculator engine.
   Sources: src/app.py (Streamlit variant) and src/backend/main.py (API variant).
   Python float arithmetic is modelled with exact rationals; Python division by
   zero, which raises, is modelled with Option where a claim depends on it. -/

/-- One stamp-duty band: lower bound, optional upper bound (none models the
unbounded top band written as float infinity in the source), marginal rate. -/
structure Band where
  lower : ℚ
  upper : Option ℚ
  rate : ℚ

/-- Duty contributed by one band: the source adds
min(property_value - lower, upper - lower) * rate whenever property_value > lower. -/
def bandDuty (pv : ℚ) (b : Band) : ℚ :=
  if b.lower < pv then
    (match b.upper with
      | some u => min (pv - b.lower) (u - b.lower)
      | none => pv - b.lower) * b.rate
  else 0

/-- Second-home band table of calculate_stamp_duty (identical in both sources). -/
def secondHomeBands : List Band :=
  [⟨0, some 125000, 5/100⟩, ⟨125001, some 250000, 7/100⟩, ⟨250001, none, 10/100⟩]

/-- Standard band table of calculate_stamp_duty (identical in both sources). -/
def standardBands : List Band :=
  [⟨0, some 250000, 0⟩, ⟨250001, some 925000, 5/100⟩,
   ⟨925001, some 1500000, 10/100⟩, ⟨1500001, none, 12/100⟩]

/-- calculate_stamp_duty, app.py lines 157-177 and backend/main.py lines 60-82
(the two copies are identical). -/
def calculate_stamp_duty (property_value : ℚ) ( is_second_home : Bool) : ℚ :=
  ((if is_second_home then secondHomeBands else standardBands).map
    (bandDuty property_value)).sum

/-- calculate_mortgage_payment, app.py lines 152-155 and backend/main.py
lines 55-58. Python raises ZeroDivisionError when the annuity denominator
(1 + monthly_rate)^num_payments - 1 is zero, modelled here as none. -/
def calculate_mortgage_payment (principal annual_rate : ℚ) (years : ℕ) : Option ℚ :=
  let monthly_rate := annual_rate / 12
  let num_payments := years * 12
  if (1 + monthly_rate) ^ num_payments - 1 = 0 then none
  else some (principal * (monthly_rate * (1 + monthly_rate) ^ num_payments) /
    ((1 + monthly_rate) ^ num_payments - 1))

/-- Total version of the same annuity formula, used inside the engine embedding;
it agrees with calculate_mortgage_payment whenever the latter succeeds. -/
def mortgagePaymentQ (principal annual_rate : ℚ) (years : ℕ) : ℚ :=
  let monthly_rate := annual_rate / 12
  let num_payments := years * 12
  principal * (monthly_rate * (1 + monthly_rate) ^ num_payments) /
    ((1 + monthly_rate) ^ num_payments - 1)

/-- BuyScenario input record (same fields in both sources). -/
structure BuyScenario where
  mortgage_rate : ℚ
  loan_term : ℕ
  deposit : ℚ
  conveyancing_fees : ℚ
  property_value : ℚ
  stamp_duty : ℚ
  selling_agent_fees_percent : ℚ
  home_appreciation_rate : ℚ
  investment_return_rate : ℚ
  upfront_renovation_cost : ℚ
  upfront_furniture_cost : ℚ
  home_insurance : ℚ
  room_rent : Option ℚ
  room_rent_increase : Option ℚ
  months_rented_per_year : Option ℕ
  loan_amount : ℚ
  is_second_home : Bool
  cgt_rate : ℚ

/-- RentScenario input record. -/
structure RentScenario where
  rent_per_month : ℚ
  rent_annual_increase : ℚ

/-- CommonParams input record (backend calls the last field daughter_living_years). -/
structure CommonParams where
  utilities_per_month : ℚ
  sell_after_years : ℕ
  child_living_years : ℕ

/-- monthly_mortgage as computed by the engine from the scenario. -/
def monthlyMortgage (b : BuyScenario) : ℚ :=
  mortgagePaymentQ b.loan_amount b.mortgage_rate b.loan_term

/-- property_value array: pv[0] = property_value and
pv[i] = pv[i-1] * (1 + home_appreciation_rate). -/
def propertyValueAt (b : BuyScenario) : ℕ → ℚ
  | 0 => b.property_value
  | i + 1 => propertyValueAt b i * (1 + b.home_appreciation_rate)

/-- mortgage_balance array: balance[0] = loan_amount and
balance[i] = balance[i-1] - (12 * monthly_mortgage - balance[i-1] * mortgage_rate),
the yearly amortization step of both sources. -/
def mortgageBalance (b : BuyScenario) : ℕ → ℚ
  | 0 => b.loan_amount
  | i + 1 =>
    mortgageBalance b i - (12 * monthlyMortgage b - mortgageBalance b i * b.mortgage_rate)

/-- selling_price at the horizon. -/
def sellingPrice (b : BuyScenario) (c : CommonParams) : ℚ :=
  propertyValueAt b c.sell_after_years

/-- agent_fees at sale. -/
def agentFees (b : BuyScenario) (c : CommonParams) : ℚ :=
  sellingPrice b c * b.selling_agent_fees_percent

/-- total_mortgage_interest used for the CGT deduction in both sources: for i in
range(sell_after_years + 1), add mortgage_balance[i] * mortgage_rate. -/
def totalMortgageInterest (b : BuyScenario) (c : CommonParams) : ℚ :=
  ∑ i ∈ Finset.range (c.sell_after_years + 1), mortgageBalance b i * b.mortgage_rate

/-- mortgage_interest_deduction = total_mortgage_interest * 0.20. -/
def mortgageInterestDeduction (b : BuyScenario) (c : CommonParams) : ℚ :=
  totalMortgageInterest b c * (20 / 100)

/-- yearly rent in year i of the rent scenario. -/
def yearlyRent (r : RentScenario) (i : ℕ) : ℚ :=
  r.rent_per_month * 12 * (1 + r.rent_annual_increase) ^ (i - 1)

/-- investment_balance accumulator of the rent scenario: starts at the deposit
and compounds by investment_return_rate each year. -/
def investmentBalance (b : BuyScenario) : ℕ → ℚ
  | 0 => b.deposit
  | i + 1 => investmentBalance b i * (1 + b.investment_return_rate)

/-- investment return credited in year i, computed on the prior investment
balance, not on the prior bank balance. -/
def investmentReturn (b : BuyScenario) (i : ℕ) : ℚ :=
  investmentBalance b (i - 1) * b.investment_return_rate

namespace App

/-- original_cost for CGT, app.py line 281: uses the stamp_duty input field. -/
def originalCost (b : BuyScenario) : ℚ :=
  b.property_value + b.conveyancing_fees + b.stamp_duty

/-- capital_gain at sale. -/
def capitalGain (b : BuyScenario) (c : CommonParams) : ℚ :=
  sellingPrice b c - originalCost b

/-- taxable_gain = max(0, capital_gain - mortgage_interest_deduction). -/
def taxableGain (b : BuyScenario) (c : CommonParams) : ℚ :=
  max 0 (capitalGain b c - mortgageInterestDeduction b c)

/-- app.py line 298: CGT charged only when the taxable gain is positive and the
property is a second home. -/
def cgt (b : BuyScenario) (c : CommonParams) : ℚ :=
  if 0 < taxableGain b c ∧ b.is_second_home = true then taxableGain b c * b.cgt_rate else 0

/-- sale_proceeds = selling_price - agent_fees - remaining_mortgage - cgt. -/
def saleProceeds (b : BuyScenario) (c : CommonParams) : ℚ :=
  sellingPrice b c - agentFees b c - mortgageBalance b c.sell_after_years - cgt b c

/-- Room rental income credited in year i, app.py lines 248-259: requires all
three optional fields, partial rent while i ≤ child_living_years, then
full-house rent of compounded room rent times 12 times 2. -/
def rentalIncome (b : BuyScenario) (c : CommonParams) (i : ℕ) : ℚ :=
  match b.room_rent, b.room_rent_increase, b.months_rented_per_year with
  | some rr, some inc, some m =>
    if i ≤ c.child_living_years then rr * (1 + inc) ^ (i - 1) * (m : ℚ)
    else rr * (1 + inc) ^ (i - 1) * 12 * 2
  | _, _, _ => 0

/-- In-loop buy cash flow of year i ≥ 1, app.py lines 224-259. -/
def buyOperating (b : BuyScenario) (c : CommonParams) (i : ℕ) : ℚ :=
  -(12 * monthlyMortgage b) - b.home_insurance - c.utilities_per_month * 12 +
    rentalIncome b c i

/-- Year 0 buy cash flow, app.py lines 197-206. -/
def initialCosts (b : BuyScenario) : ℚ :=
  -b.deposit + -b.conveyancing_fees + -b.stamp_duty + -b.upfront_renovation_cost +
    -b.upfront_furniture_cost

/-- Final buy cash flow array: year 0 initial costs, operating flows afterwards,
and sale proceeds added at the terminal index (app.py line 315). -/
def buyCashFlow (b : BuyScenario) (c : CommonParams) (i : ℕ) : ℚ :=
  if i = c.sell_after_years then
    (if i = 0 then initialCosts b else buyOperating b c i) + saleProceeds b c
  else if i = 0 then initialCosts b
  else buyOperating b c i

/-- Buy bank balance as computed inside the yearly loop (before the terminal
overwrite); app.py starts it at 0 (line 207). -/
def bankBalanceLoop (b : BuyScenario) (c : CommonParams) : ℕ → ℚ
  | 0 => 0
  | i + 1 => bankBalanceLoop b c i + buyOperating b c (i + 1)

/-- Final buy bank balance array: app.py line 316 overwrites the terminal entry
with loop balance[N-1] plus sale_proceeds. -/
def buyBankBalance (b : BuyScenario) (c : CommonParams) (i : ℕ) : ℚ :=
  if i = c.sell_after_years then
    bankBalanceLoop b c (c.sell_after_years - 1) + saleProceeds b c
  else bankBalanceLoop b c i

/-- Rent cash flow of year i, app.py lines 345-356: investment return, minus
rent plus utilities while i ≤ child_living_years, nothing else afterwards. -/
def rentCashFlow (b : BuyScenario) (r : RentScenario) (c : CommonParams) (i : ℕ) : ℚ :=
  if i = 0 then 0
  else investmentReturn b i -
    (if i ≤ c.child_living_years then yearlyRent r i + c.utilities_per_month * 12 else 0)

/-- Rent bank balance array: starts at the deposit and accumulates the rent
cash flow (app.py lines 335, 376). -/
def rentBankBalance (b : BuyScenario) (r : RentScenario) (c : CommonParams) : ℕ → ℚ
  | 0 => b.deposit
  | i + 1 => rentBankBalance b r c i + rentCashFlow b r c (i + 1)

end App

namespace Backend

/-- The backend recomputes stamp duty from the inputs (main.py lines 89-90)
and overwrites the stamp_duty field with it. -/
def effStampDuty (b : BuyScenario) : ℚ :=
  calculate_stamp_duty b.property_value b.is_second_home

/-- original_cost for CGT, main.py line 230. -/
def originalCost (b : BuyScenario) : ℚ :=
  b.property_value + b.conveyancing_fees + effStampDuty b

/-- capital_gain at sale. -/
def capitalGain (b : BuyScenario) (c : CommonParams) : ℚ :=
  sellingPrice b c - originalCost b

/-- taxable_gain = max(0, capital_gain - mortgage_interest_deduction). -/
def taxableGain (b : BuyScenario) (c : CommonParams) : ℚ :=
  max 0 (capitalGain b c - mortgageInterestDeduction b c)

/-- main.py line 257: CGT is charged on the taxable gain unconditionally,
with no second-home test. -/
def cgt (b : BuyScenario) (c : CommonParams) : ℚ :=
  taxableGain b c * b.cgt_rate

/-- sale_proceeds = selling_price - agent_fees - remaining_mortgage - cgt. -/
def saleProceeds (b : BuyScenario) (c : CommonParams) : ℚ :=
  sellingPrice b c - agentFees b c - mortgageBalance b c.sell_after_years - cgt b c

/-- Accumulator for the deposit opportunity cost (main.py lines 113, 158-160). -/
def depositInvBalance (b : BuyScenario) : ℕ → ℚ
  | 0 => b.deposit
  | i + 1 => depositInvBalance b i * (1 + b.investment_return_rate)

/-- Room rental income in year i, main.py lines 182-195: the partial branch
requires all three optional fields and i ≤ daughter_living_years; the
full-house branch requires only room_rent and room_rent_increase. -/
def rentalIncome (b : BuyScenario) (c : CommonParams) (i : ℕ) : ℚ :=
  (match b.room_rent, b.room_rent_increase, b.months_rented_per_year with
    | some rr, some inc, some m =>
      if i ≤ c.child_living_years then rr * (1 + inc) ^ (i - 1) * (m : ℚ) else 0
    | _, _, _ => 0) +
  (if c.child_living_years < i ∧ i ≤ c.sell_after_years then
    (match b.room_rent, b.room_rent_increase with
      | some rr, some inc => rr * (1 + inc) ^ (i - 1) * 12 * 2
      | _, _ => 0)
  else 0)

/-- In-loop buy cash flow of year i ≥ 1, main.py lines 151-195: unlike app.py
it also debits the deposit opportunity cost. -/
def buyOperating (b : BuyScenario) (c : CommonParams) (i : ℕ) : ℚ :=
  -(depositInvBalance b (i - 1) * b.investment_return_rate) - 12 * monthlyMortgage b -
    b.home_insurance - c.utilities_per_month * 12 + rentalIncome b c i

/-- Year 0 buy cash flow, main.py lines 116-123. -/
def initialCosts (b : BuyScenario) : ℚ :=
  -b.deposit + -b.conveyancing_fees + -effStampDuty b + -b.upfront_renovation_cost +
    -b.upfront_furniture_cost

/-- Final buy cash flow array of the backend variant. -/
def buyCashFlow (b : BuyScenario) (c : CommonParams) (i : ℕ) : ℚ :=
  if i = c.sell_after_years then
    (if i = 0 then initialCosts b else buyOperating b c i) + saleProceeds b c
  else if i = 0 then initialCosts b
  else buyOperating b c i

/-- Rent cash flow of year i, main.py lines 317-339: investment return minus
rent while i ≤ daughter_living_years; the backend charges no utilities line. -/
def rentCashFlow (b : BuyScenario) (r : RentScenario) (c : CommonParams) (i : ℕ) : ℚ :=
  if i = 0 then 0
  else investmentReturn b i -
    (if i ≤ c.child_living_years then yearlyRent r i else 0)

/-- Rent bank balance array of the backend variant. -/
def rentBankBalance (b : BuyScenario) (r : RentScenario) (c : CommonParams) : ℕ → ℚ
  | 0 => b.deposit
  | i + 1 => rentBankBalance b r c i + rentCashFlow b r c (i + 1)

end Backend

/-- Modelled from the spec for claim C4 only: the cumulative mortgage interest
actually paid over years 1..N, where the interest of year i is the mortgage
balance at the start of year i times the annual rate. The yearly loop pays
interest mortgage_balance[i-1] * mortgage_rate in year i for i = 1..N. -/
def specCumulativeInterestPaid (b : BuyScenario) (c : CommonParams) : ℚ :=
  ∑ i ∈ Finset.range c.sell_after_years, mortgageBalance b i * b.mortgage_rate

/-- Concrete scenario exercising the CGT branch: primary residence, zero loan,
property doubling from 100000 in one year. -/
def sCgt : BuyScenario :=
  { mortgage_rate := 12, loan_term := 1, deposit := 100000, conveyancing_fees := 0,
    property_value := 100000, stamp_duty := 0, selling_agent_fees_percent := 0,
    home_appreciation_rate := 1, investment_return_rate := 0,
    upfront_renovation_cost := 0, upfront_furniture_cost := 0, home_insurance := 0,
    room_rent := none, room_rent_increase := none, months_rented_per_year := none,
    loan_amount := 0, is_second_home := false, cgt_rate := 28 / 100 }

/-- One-year horizon companion parameters for sCgt. -/
def cCgt : CommonParams :=
  { utilities_per_month := 0, sell_after_years := 1, child_living_years := 0 }

/-- Concrete scenario with nonzero operating costs (insurance 300, utilities 150
per month) and zero loan, used for the bank-balance claims. -/
def sBal : BuyScenario :=
  { mortgage_rate := 12, loan_term := 1, deposit := 100000, conveyancing_fees := 0,
    property_value := 100000, stamp_duty := 0, selling_agent_fees_percent := 0,
    home_appreciation_rate := 0, investment_return_rate := 0,
    upfront_renovation_cost := 0, upfront_furniture_cost := 0, home_insurance := 300,
    room_rent := none, room_rent_increase := none, months_rented_per_year := none,
    loan_amount := 0, is_second_home := false, cgt_rate := 28 / 100 }

/-- One-year horizon companion parameters for sBal. -/
def cBal : CommonParams :=
  { utilities_per_month := 150, sell_after_years := 1, child_living_years := 0 }

/-- Two-year horizon companion parameters for sBal. -/
def cBal2 : CommonParams :=
  { utilities_per_month := 150, sell_after_years := 2, child_living_years := 0 }

/-- Concrete scenario for the amortization claims: loan 4095 at annual rate 12
over a one-year term, giving an exact monthly payment of 4096. -/
def sAmort : BuyScenario :=
  { mortgage_rate := 12, loan_term := 1, deposit := 0, conveyancing_fees := 0,
    property_value := 4095, stamp_duty := 0, selling_agent_fees_percent := 0,
    home_appreciation_rate := 0, investment_return_rate := 0,
    upfront_renovation_cost := 0, upfront_furniture_cost := 0, home_insurance := 0,
    room_rent := none, room_rent_increase := none, months_rented_per_year := none,
    loan_amount := 4095, is_second_home := false, cgt_rate := 28 / 100 }

/-- One-year horizon companion parameters for sAmort. -/
def cAmort : CommonParams :=
  { utilities_per_month := 0, sell_after_years := 1, child_living_years := 0 }

/-- Concrete buy scenario for the rent-trajectory claims: deposit 1000, zero
investment return rate. -/
def sRent : BuyScenario :=
  { mortgage_rate := 12, loan_term := 1, deposit := 1000, conveyancing_fees := 0,
    property_value := 100000, stamp_duty := 0, selling_agent_fees_percent := 0,
    home_appreciation_rate := 0, investment_return_rate := 0,
    upfront_renovation_cost := 0, upfront_furniture_cost := 0, home_insurance := 0,
    room_rent := none, room_rent_increase := none, months_rented_per_year := none,
    loan_amount := 0, is_second_home := false, cgt_rate := 28 / 100 }

/-- Rent scenario of 1200 per month rising 3 percent a year. -/
def rRent : RentScenario := { rent_per_month := 1200, rent_annual_increase := 3 / 100 }

/-- One-year horizon with the occupancy window already closed. -/
def cRent : CommonParams :=
  { utilities_per_month := 150, sell_after_years := 1, child_living_years := 0 }

/-- Concrete scenario for the backend deposit-opportunity-cost divergence:
deposit 1000 at 100 percent investment return, no room rental. -/
def sRoom : BuyScenario :=
  { mortgage_rate := 12, loan_term := 1, deposit := 1000, conveyancing_fees := 0,
    property_value := 100000, stamp_duty := 0, selling_agent_fees_percent := 0,
    home_appreciation_rate := 0, investment_return_rate := 1,
    upfront_renovation_cost := 0, upfront_furniture_cost := 0, home_insurance := 300,
    room_rent := none, room_rent_increase := none, months_rented_per_year := none,
    loan_amount := 0, is_second_home := false, cgt_rate := 28 / 100 }

/-- Two-year horizon companion parameters for sRoom. -/
def cRoom : CommonParams :=
  { utilities_per_month := 150, sell_after_years := 2, child_living_years := 0 }

/-- Concrete scenario with the room-rental triple configured. -/
def sRoomW : BuyScenario :=
  { mortgage_rate := 12, loan_term := 1, deposit := 1000, conveyancing_fees := 0,
    property_value := 100000, stamp_duty := 0, selling_agent_fees_percent := 0,
    home_appreciation_rate := 0, investment_return_rate := 0,
    upfront_renovation_cost := 0, upfront_furniture_cost := 0, home_insurance := 300,
    room_rent := some 500, room_rent_increase := some (3 / 100),
    months_rented_per_year := some 9,
    loan_amount := 0, is_second_home := false, cgt_rate := 28 / 100 }

/-- Two-year horizon with a three-year occupancy window for sRoomW. -/
def cRoomW : CommonParams :=
  { utilities_per_month := 150, sell_after_years := 2, child_living_years := 3 }

/-- Duty of a bounded band, stated on an explicit constructor. -/
lemma bandDuty_some (pv l u r : ℚ) :
    bandDuty pv ⟨l, some u, r⟩ = if l < pv then min (pv - l) (u - l) * r else 0 := rfl

/-- Duty of the unbounded top band, stated on an explicit constructor. -/
lemma bandDuty_none (pv l r : ℚ) :
    bandDuty pv ⟨l, none, r⟩ = if l < pv then (pv - l) * r else 0 := rfl

/-- Claim C2: the claim asserts stampDuty(250001, false) is about 0.05, one
currency unit taxed at 5 percent. The code disagrees: the standard table stores
the 5 percent band with lower bound 250001 and tests property_value > lower
strictly, so 250001 is not taxed at all. -/
theorem c2_counterexample :
    calculate_stamp_duty 250001 false = 0 ∧ calculate_stamp_duty 250001 false ≠ 5 / 100 := by
  norm_num [calculate_stamp_duty, standardBands, bandDuty_some, bandDuty_none]

/-- Claim C2 (amended): stampDuty(250000, false) = 0 and stampDuty(250001,
false) = 0; the first currency unit taxed at 5 percent is at value 250002,
where the duty is exactly 0.05. -/
theorem c2_band_boundary :
    calculate_stamp_duty 250000 false = 0 ∧ calculate_stamp_duty 250001 false = 0 ∧
      calculate_stamp_duty 250002 false = 5 / 100 := by
  norm_num [calculate_stamp_duty, standardBands, bandDuty_some, bandDuty_none]

/-- Claim C4: the claim asserts the deduction is 20 percent of the interest
actually paid over years 1..N. On the concrete sAmort scenario the code value
(19627.2) differs from 20 percent of the paid interest (9828), because the
code also adds the never-paid interest on the terminal balance. -/
theorem c4_counterexample :
    mortgageInterestDeduction sAmort cAmort ≠
      20 / 100 * specCumulativeInterestPaid sAmort cAmort := by
  norm_num [mortgageInterestDeduction, totalMortgageInterest, specCumulativeInterestPaid,
    mortgageBalance, monthlyMortgage, mortgagePaymentQ, sAmort, cAmort, Finset.sum_range_succ]

/-- Claim C4 (amended): the deduction equals 20 percent of the sum of
mortgage_balance[i] * mortgage_rate for i = 0..N, which is the cumulative
interest paid over years 1..N plus one extra term, the interest on the terminal
balance; taxable_gain = max(0, capital_gain - deduction) with capital_gain
computed from the initial property value plus conveyancing fees and stamp duty. -/
theorem c4_deduction (b : BuyScenario) (c : CommonParams) :
    mortgageInterestDeduction b c =
      20 / 100 * (specCumulativeInterestPaid b c +
        mortgageBalance b c.sell_after_years * b.mortgage_rate) ∧
    App.taxableGain b c = max 0 (App.capitalGain b c - mortgageInterestDeduction b c) ∧
    App.capitalGain b c =
      sellingPrice b c - (b.property_value + b.conveyancing_fees + b.stamp_duty) := by
  refine ⟨?_, rfl, rfl⟩
  unfold mortgageInterestDeduction totalMortgageInterest specCumulativeInterestPaid
  rw [Finset.sum_range_succ]
  ring

/-- Claim C7: for a positive annual rate and a term of at least one year the
annuity denominator is nonzero and calculate_mortgage_payment returns the
standard fixed-rate formula, while at annual rate 0 the Python computation
divides by zero (modelled as none). -/
theorem c7_mortgage_payment (p annual_rate : ℚ) (y : ℕ) :
    (0 < annual_rate → 1 ≤ y →
      (1 + annual_rate / 12) ^ (y * 12) - 1 ≠ 0 ∧
      calculate_mortgage_payment p annual_rate y =
        some (p * (annual_rate / 12 * (1 + annual_rate / 12) ^ (y * 12)) /
          ((1 + annual_rate / 12) ^ (y * 12) - 1))) ∧
    calculate_mortgage_payment p 0 y = none := by
  constructor
  · intro hr hy
    have hlt : (1 : ℚ) < 1 + annual_rate / 12 := by linarith [div_pos hr (by norm_num : (0:ℚ) < 12)]
    have hn : y * 12 ≠ 0 := by positivity
    have hpow : (1 : ℚ) < (1 + annual_rate / 12) ^ (y * 12) := by
      have := pow_lt_pow_left₀ hlt (by norm_num : (0:ℚ) ≤ 1) hn
      rwa [one_pow] at this
    have hden : (1 + annual_rate / 12) ^ (y * 12) - 1 ≠ 0 := by linarith
    refine ⟨hden, ?_⟩
    unfold calculate_mortgage_payment
    simp only []
    rw [if_neg hden]
  · unfold calculate_mortgage_payment
    norm_num

/-- Witness for c7_mortgage_payment at principal 1000, rate 12, one year. -/
theorem c7_mortgage_payment_witness :
    ((1 + (12 : ℚ) / 12) ^ (1 * 12) - 1 ≠ 0 ∧
      calculate_mortgage_payment 1000 12 1 =
        some (1000 * ((12 : ℚ) / 12 * (1 + (12 : ℚ) / 12) ^ (1 * 12)) /
          ((1 + (12 : ℚ) / 12) ^ (1 * 12) - 1))) ∧
    calculate_mortgage_payment 1000 0 1 = none :=
  ⟨(c7_mortgage_payment 1000 12 1).1 (by norm_num) (by norm_num),
    (c7_mortgage_payment 1000 12 1).2⟩

/-- Claim C1: the claim asserts CGT is charged only for second homes. That is
what app.py does, but backend/main.py charges CGT on any positive taxable gain:
on sCgt (a primary residence, is_second_home = false) the backend charges
28000 and its sale proceeds fall short of selling price minus agent fees minus
remaining mortgage. -/
theorem c1_counterexample :
    sCgt.is_second_home = false ∧ Backend.cgt sCgt cCgt = 28000 ∧
      Backend.saleProceeds sCgt cCgt ≠
        sellingPrice sCgt cCgt - agentFees sCgt cCgt - mortgageBalance sCgt 1 := by
  refine ⟨rfl, ?_, ?_⟩ <;>
    norm_num [Backend.saleProceeds, Backend.cgt, Backend.taxableGain, Backend.capitalGain,
      Backend.originalCost, Backend.effStampDuty, calculate_stamp_duty, standardBands,
      bandDuty_some, bandDuty_none, mortgageInterestDeduction, totalMortgageInterest,
      sellingPrice, propertyValueAt, agentFees, mortgageBalance, monthlyMortgage,
      mortgagePaymentQ, sCgt, cCgt, Finset.sum_range_succ]

/-- Claim C1 (amended): in the app.py engine CGT equals taxable_gain times
cgt_rate exactly when is_second_home is true and is 0 otherwise, so for a
primary residence the sale proceeds are selling_price - agent_fees -
remaining_mortgage; the backend variant instead charges taxable_gain times
cgt_rate regardless of is_second_home. -/
theorem c1_cgt_policy (b : BuyScenario) (c : CommonParams) :
    App.cgt b c = (if b.is_second_home = true then App.taxableGain b c * b.cgt_rate else 0) ∧
    (b.is_second_home = false →
      App.cgt b c = 0 ∧
      App.saleProceeds b c =
        sellingPrice b c - agentFees b c - mortgageBalance b c.sell_after_years) ∧
    Backend.cgt b c = Backend.taxableGain b c * b.cgt_rate := by
  have hmain : App.cgt b c =
      (if b.is_second_home = true then App.taxableGain b c * b.cgt_rate else 0) := by
    unfold App.cgt
    cases hs : b.is_second_home
    · simp [hs]
    · simp only [hs, and_true, if_true]
      by_cases htg : 0 < App.taxableGain b c
      · rw [if_pos htg]
      · have h0 : App.taxableGain b c = 0 :=
          le_antisymm (not_lt.1 htg) (le_max_left 0 _)
        rw [if_neg htg, h0, zero_mul]
  refine ⟨hmain, ?_, rfl⟩
  intro hs
  have hz : App.cgt b c = 0 := by rw [hmain, hs]; simp
  exact ⟨hz, by unfold App.saleProceeds; rw [hz]; ring⟩

/-- Witness for c1_cgt_policy on the concrete primary-residence scenario sCgt. -/
theorem c1_cgt_policy_witness :
    App.cgt sCgt cCgt = 0 ∧
    App.saleProceeds sCgt cCgt =
      sellingPrice sCgt cCgt - agentFees sCgt cCgt - mortgageBalance sCgt cCgt.sell_after_years := by
  exact (c1_cgt_policy sCgt cCgt).2.1 rfl

/-- Claim C3: the claim asserts bank_balance[i] = bank_balance[i-1] +
cash_flow[i] up to and including the terminal year. On the concrete scenario
sBal the terminal bank balance is 100000 while the prior balance plus the
terminal cash flow is 97900, because the code overwrites the terminal balance
with prior balance + sale_proceeds, dropping the terminal operating flows. -/
theorem c3_counterexample :
    App.buyBankBalance sBal cBal 1 ≠
      App.buyBankBalance sBal cBal 0 + App.buyCashFlow sBal cBal 1 := by
  norm_num [App.buyBankBalance, App.bankBalanceLoop, App.buyOperating, App.rentalIncome,
    App.buyCashFlow, App.initialCosts, App.saleProceeds, App.cgt, App.taxableGain,
    App.capitalGain, App.originalCost, sellingPrice, propertyValueAt, agentFees,
    mortgageBalance, monthlyMortgage, mortgagePaymentQ, mortgageInterestDeduction,
    totalMortgageInterest, sBal, cBal, Finset.sum_range_succ]

/-- Claim C3 (amended): the accumulation invariant bank_balance[i] =
bank_balance[i-1] + cash_flow[i] holds for 1 ≤ i ≤ N-1, but in the terminal
year the engine sets bank_balance[N] = bank_balance[N-1] + sale_proceeds,
so the final balance omits the terminal-year mortgage, insurance, utilities
and rental flows even though they remain part of cash_flow[N]. -/
theorem c3_bank_balance (b : BuyScenario) (c : CommonParams) (i : ℕ)
    (h1 : 1 ≤ i) (h2 : i + 1 ≤ c.sell_after_years) :
    App.buyBankBalance b c i = App.buyBankBalance b c (i - 1) + App.buyCashFlow b c i ∧
    App.buyBankBalance b c c.sell_after_years =
      App.buyBankBalance b c (c.sell_after_years - 1) + App.saleProceeds b c := by
  obtain ⟨j, rfl⟩ : ∃ j, i = j + 1 := ⟨i - 1, (Nat.succ_pred_eq_of_pos h1).symm⟩
  have hiN : j + 1 ≠ c.sell_after_years := by omega
  have hjN : j ≠ c.sell_after_years := by omega
  have hN1 : 1 ≤ c.sell_after_years := by omega
  constructor
  · rw [App.buyBankBalance, App.buyBankBalance, App.buyCashFlow, if_neg hiN, if_neg hiN,
      if_neg (by omega : j + 1 ≠ 0)]
    simp only [Nat.add_sub_cancel, if_neg hjN]
    rfl
  · have hNsub : c.sell_after_years - 1 ≠ c.sell_after_years := by omega
    rw [App.buyBankBalance, App.buyBankBalance, if_pos rfl, if_neg hNsub]

/-- Witness for c3_bank_balance on the concrete scenario sBal with a two-year
horizon, at year 1. -/
theorem c3_bank_balance_witness :
    App.buyBankBalance sBal cBal2 1 =
      App.buyBankBalance sBal cBal2 0 + App.buyCashFlow sBal cBal2 1 ∧
    App.buyBankBalance sBal cBal2 cBal2.sell_after_years =
      App.buyBankBalance sBal cBal2 (cBal2.sell_after_years - 1) +
        App.saleProceeds sBal cBal2 := by
  have h := c3_bank_balance sBal cBal2 1 (by norm_num) (by norm_num [cBal2])
  exact ⟨h.1, h.2⟩

/-- Closed form of the compounding investment balance of the rent scenario. -/
lemma investmentBalance_closed (b : BuyScenario) :
    ∀ k : ℕ, investmentBalance b k = b.deposit * (1 + b.investment_return_rate) ^ k
  | 0 => by rw [investmentBalance, pow_zero, mul_one]
  | k + 1 => by
    rw [investmentBalance, investmentBalance_closed b k, pow_succ]
    ring

/-- Closed form of the deposit opportunity-cost accumulator of the backend. -/
lemma depositInvBalance_closed (b : BuyScenario) :
    ∀ k : ℕ, Backend.depositInvBalance b k = b.deposit * (1 + b.investment_return_rate) ^ k
  | 0 => by rw [Backend.depositInvBalance, pow_zero, mul_one]
  | k + 1 => by
    rw [Backend.depositInvBalance, depositInvBalance_closed b k, pow_succ]
    ring

/-- Claim C5: the claim asserts utilities are charged in every rent-scenario
year and that the investment return is earned on the prior bank balance. On
sRent with the occupancy window closed (child_living_years = 0) the year-1
bank balance is 1000, not the prior balance plus return minus utilities
(which would be -800): after the window closes neither rent nor utilities is
charged. -/
theorem c5_counterexample :
    App.rentBankBalance sRent rRent cRent 1 ≠
      App.rentBankBalance sRent rRent cRent 0 +
        sRent.investment_return_rate * App.rentBankBalance sRent rRent cRent 0 -
        cRent.utilities_per_month * 12 := by
  norm_num [App.rentBankBalance, App.rentCashFlow, investmentReturn, investmentBalance,
    yearlyRent, sRent, rRent, cRent]

/-- Claim C5 (amended): in app.py rent AND utilities are both charged exactly
while i ≤ child_living_years and neither afterwards; the investment return of
year i is earned on a separate compounding balance deposit * (1+rate)^(i-1),
not on the prior bank balance; the bank balance accumulates the rent cash
flow. In backend/main.py the rent line is the same but no utilities are ever
charged. -/
theorem c5_rent_trajectory (b : BuyScenario) (r : RentScenario) (c : CommonParams)
    (i : ℕ) (h1 : 1 ≤ i) :
    App.rentCashFlow b r c i = investmentReturn b i -
      (if i ≤ c.child_living_years then yearlyRent r i + c.utilities_per_month * 12 else 0) ∧
    App.rentBankBalance b r c i =
      App.rentBankBalance b r c (i - 1) + App.rentCashFlow b r c i ∧
    investmentReturn b i =
      b.deposit * (1 + b.investment_return_rate) ^ (i - 1) * b.investment_return_rate ∧
    Backend.rentCashFlow b r c i = investmentReturn b i -
      (if i ≤ c.child_living_years then yearlyRent r i else 0) := by
  obtain ⟨j, rfl⟩ : ∃ j, i = j + 1 := ⟨i - 1, (Nat.succ_pred_eq_of_pos h1).symm⟩
  refine ⟨?_, ?_, ?_, ?_⟩
  · rw [App.rentCashFlow, if_neg (by omega : j + 1 ≠ 0)]
  · rw [App.rentBankBalance]
    simp only [Nat.add_sub_cancel]
  · rw [investmentReturn, Nat.add_sub_cancel, investmentBalance_closed]
  · rw [Backend.rentCashFlow, if_neg (by omega : j + 1 ≠ 0)]

/-- Witness for c5_rent_trajectory on the concrete scenario sRent at year 1. -/
theorem c5_rent_trajectory_witness :
    App.rentCashFlow sRent rRent cRent 1 = investmentReturn sRent 1 -
      (if 1 ≤ cRent.child_living_years
       then yearlyRent rRent 1 + cRent.utilities_per_month * 12 else 0) ∧
    App.rentBankBalance sRent rRent cRent 1 =
      App.rentBankBalance sRent rRent cRent 0 + App.rentCashFlow sRent rRent cRent 1 ∧
    investmentReturn sRent 1 =
      sRent.deposit * (1 + sRent.investment_return_rate) ^ (1 - 1) *
        sRent.investment_return_rate ∧
    Backend.rentCashFlow sRent rRent cRent 1 = investmentReturn sRent 1 -
      (if 1 ≤ cRent.child_living_years then yearlyRent rRent 1 else 0) :=
  c5_rent_trajectory sRent rRent cRent 1 (le_refl 1)

/-- Claim C6: the claim asserts that in non-terminal years the buy cash flow
consists exactly of mortgage, insurance, utilities and (when configured)
rental income. True of app.py, but backend/main.py also debits the deposit
opportunity cost: on sRoom (no rental configured, deposit 1000 at 100 percent
return) the backend year-1 cash flow is -3100, not -2100. -/
theorem c6_counterexample :
    Backend.buyCashFlow sRoom cRoom 1 ≠
      -(12 * monthlyMortgage sRoom) - sRoom.home_insurance -
        cRoom.utilities_per_month * 12 := by
  norm_num [Backend.buyCashFlow, Backend.buyOperating, Backend.rentalIncome,
    Backend.depositInvBalance, monthlyMortgage, mortgagePaymentQ, sRoom, cRoom]

/-- Claim C6 (amended): in app.py the non-terminal buy cash flow is exactly
minus the annual mortgage payment, insurance and utilities, plus, when the
room-rental triple is configured, partial room rent while i ≤
child_living_years and full-house rent (times 12 times 2) afterwards, and
nothing else; the backend variant additionally debits the deposit opportunity
cost deposit * (1+investment_return_rate)^(i-1) * investment_return_rate. -/
theorem c6_operating_cash_flow (b : BuyScenario) (c : CommonParams) (i : ℕ)
    (h1 : 1 ≤ i) (h2 : i + 1 ≤ c.sell_after_years) :
    (∀ rr inc m, b.room_rent = some rr → b.room_rent_increase = some inc →
      b.months_rented_per_year = some m →
      App.buyCashFlow b c i = -(12 * monthlyMortgage b) - b.home_insurance -
        c.utilities_per_month * 12 +
        (if i ≤ c.child_living_years then rr * (1 + inc) ^ (i - 1) * (m : ℚ)
         else rr * (1 + inc) ^ (i - 1) * 12 * 2)) ∧
    (b.room_rent = none →
      App.buyCashFlow b c i =
        -(12 * monthlyMortgage b) - b.home_insurance - c.utilities_per_month * 12) ∧
    (b.room_rent = none →
      Backend.buyCashFlow b c i =
        -(b.deposit * (1 + b.investment_return_rate) ^ (i - 1) *
            b.investment_return_rate) -
          12 * monthlyMortgage b - b.home_insurance - c.utilities_per_month * 12) := by
  have hiN : i ≠ c.sell_after_years := by omega
  have hi0 : i ≠ 0 := by omega
  have hcf : App.buyCashFlow b c i = App.buyOperating b c i := by
    rw [App.buyCashFlow, if_neg hiN, if_neg hi0]
  have hcfB : Backend.buyCashFlow b c i = Backend.buyOperating b c i := by
    rw [Backend.buyCashFlow, if_neg hiN, if_neg hi0]
  refine ⟨?_, ?_, ?_⟩
  · intro rr inc m hrr hinc hm
    rw [hcf, App.buyOperating]
    simp only [App.rentalIncome, hrr, hinc, hm]
  · intro hrr
    rw [hcf, App.buyOperating]
    simp only [App.rentalIncome, hrr]
    ring
  · intro hrr
    rw [hcfB, Backend.buyOperating]
    simp only [Backend.rentalIncome, hrr, ite_self]
    rw [depositInvBalance_closed]
    ring

/-- Witness for c6_operating_cash_flow on sRoomW (room-rental triple set) at
year 1 of a two-year horizon. -/
theorem c6_operating_cash_flow_witness :
    App.buyCashFlow sRoomW cRoomW 1 = -(12 * monthlyMortgage sRoomW) -
      sRoomW.home_insurance - cRoomW.utilities_per_month * 12 +
      (if 1 ≤ cRoomW.child_living_years
       then (500 : ℚ) * (1 + 3 / 100) ^ (1 - 1) * ((9 : ℕ) : ℚ)
       else (500 : ℚ) * (1 + 3 / 100) ^ (1 - 1) * 12 * 2) :=
  (c6_operating_cash_flow sRoomW cRoomW 1 (by norm_num) (by norm_num [cRoomW])).1
    500 (3 / 100) 9 rfl rfl rfl

/-- Strict Bernoulli bound at exponent 12: monthly compounding of a positive
annual rate beats simple interest. -/
lemma one_add_lt_pow_twelve (R : ℚ) (hR : 0 < R) : 1 + R < (1 + R / 12) ^ 12 := by
  have ht0 : 0 < R / 12 := by positivity
  have h1 : (1 : ℚ) + 2 * (R / 12) < (1 + R / 12) ^ 2 := by nlinarith
  have h2 : ((1 : ℚ) + 2 * (R / 12)) ^ 6 < ((1 + R / 12) ^ 2) ^ 6 :=
    pow_lt_pow_left₀ h1 (by linarith) (by norm_num)
  have h3 : (1 : ℚ) + 12 * (R / 12) ≤ (1 + 2 * (R / 12)) ^ 6 := by
    have h := one_add_mul_le_pow (show (-2 : ℚ) ≤ 2 * (R / 12) by linarith) 6
    calc (1 : ℚ) + 12 * (R / 12) = 1 + (6 : ℕ) * (2 * (R / 12)) := by push_cast; ring
      _ ≤ (1 + 2 * (R / 12)) ^ 6 := h
  calc (1 : ℚ) + R = 1 + 12 * (R / 12) := by ring
    _ ≤ (1 + 2 * (R / 12)) ^ 6 := h3
    _ < ((1 + R / 12) ^ 2) ^ 6 := h2
    _ = (1 + R / 12) ^ 12 := by ring

/-- Closed form of the yearly amortization recurrence: with
x = (1 + rate/12)^(12 * term), (x - 1) * balance[k] = loan * (x - (1+rate)^k). -/
lemma mortgageBalance_closed (b : BuyScenario)
    (hx : (1 + b.mortgage_rate / 12) ^ (b.loan_term * 12) - 1 ≠ 0) :
    ∀ k : ℕ,
      ((1 + b.mortgage_rate / 12) ^ (b.loan_term * 12) - 1) * mortgageBalance b k =
        b.loan_amount *
          ((1 + b.mortgage_rate / 12) ^ (b.loan_term * 12) - (1 + b.mortgage_rate) ^ k)
  | 0 => by rw [mortgageBalance]; ring
  | k + 1 => by
    have ih := mortgageBalance_closed b hx k
    have hmm : monthlyMortgage b * ((1 + b.mortgage_rate / 12) ^ (b.loan_term * 12) - 1) =
        b.loan_amount *
          (b.mortgage_rate / 12 * (1 + b.mortgage_rate / 12) ^ (b.loan_term * 12)) := by
      show b.loan_amount *
          (b.mortgage_rate / 12 * (1 + b.mortgage_rate / 12) ^ (b.loan_term * 12)) /
          ((1 + b.mortgage_rate / 12) ^ (b.loan_term * 12) - 1) *
          ((1 + b.mortgage_rate / 12) ^ (b.loan_term * 12) - 1) = _
      exact div_mul_cancel₀ _ hx
    rw [mortgageBalance]
    linear_combination (1 + b.mortgage_rate) * ih - 12 * hmm

/-- Claim C8: the claim asserts the balance amortizes to about 0 over the full
loan term. On sAmort (loan 4095, rate 12, one-year term, exact monthly payment
4096) the balance after the full term is 4083, almost the whole loan. -/
theorem c8_counterexample : mortgageBalance sAmort sAmort.loan_term = 4083 := by
  norm_num [mortgageBalance, monthlyMortgage, mortgagePaymentQ, sAmort]

/-- Claim C8 (amended): for every positive loan amount, positive constant rate
and term of at least one year, iterating the engine yearly amortization step
for the full loan term leaves a strictly positive residual balance, equal to
loan * (x - (1+rate)^term) / (x - 1) with x = (1 + rate/12)^(12*term); the
balance does not reduce to about 0, because the yearly step charges a full
year of interest on the start-of-year balance while the annuity payment was
derived from monthly amortization. -/
theorem c8_amortization (b : BuyScenario) (hP : 0 < b.loan_amount)
    (hR : 0 < b.mortgage_rate) (hY : 1 ≤ b.loan_term) :
    0 < mortgageBalance b b.loan_term ∧
    ((1 + b.mortgage_rate / 12) ^ (b.loan_term * 12) - 1) *
        mortgageBalance b b.loan_term =
      b.loan_amount *
        ((1 + b.mortgage_rate / 12) ^ (b.loan_term * 12) -
          (1 + b.mortgage_rate) ^ b.loan_term) := by
  have h12 : 1 + b.mortgage_rate < (1 + b.mortgage_rate / 12) ^ 12 :=
    one_add_lt_pow_twelve _ hR
  have hYne : b.loan_term ≠ 0 := by omega
  have hx_eq : (1 + b.mortgage_rate / 12) ^ (b.loan_term * 12) =
      ((1 + b.mortgage_rate / 12) ^ 12) ^ b.loan_term := by
    rw [← pow_mul, Nat.mul_comm]
  have hgt : (1 + b.mortgage_rate) ^ b.loan_term <
      (1 + b.mortgage_rate / 12) ^ (b.loan_term * 12) := by
    rw [hx_eq]
    exact pow_lt_pow_left₀ h12 (by linarith) hYne
  have hone : (1 : ℚ) ≤ (1 + b.mortgage_rate) ^ b.loan_term := by
    calc (1 : ℚ) = 1 ^ b.loan_term := (one_pow _).symm
      _ ≤ (1 + b.mortgage_rate) ^ b.loan_term :=
        pow_le_pow_left₀ (by norm_num) (by linarith) _
  have hx1 : (1 : ℚ) < (1 + b.mortgage_rate / 12) ^ (b.loan_term * 12) :=
    lt_of_le_of_lt hone hgt
  have hx : (1 + b.mortgage_rate / 12) ^ (b.loan_term * 12) - 1 ≠ 0 :=
    sub_ne_zero.mpr (ne_of_gt hx1)
  have hclosed := mortgageBalance_closed b hx b.loan_term
  refine ⟨?_, hclosed⟩
  have hpos : 0 < ((1 + b.mortgage_rate / 12) ^ (b.loan_term * 12) - 1) *
      mortgageBalance b b.loan_term := by
    rw [hclosed]
    exact mul_pos hP (by linarith)
  by_contra hnp
  push_neg at hnp
  nlinarith [hpos, hx1, hnp]

/-- Witness for c8_amortization on the concrete scenario sAmort. -/
theorem c8_amortization_witness :
    0 < mortgageBalance sAmort sAmort.loan_term ∧
    ((1 + sAmort.mortgage_rate / 12) ^ (sAmort.loan_term * 12) - 1) *
        mortgageBalance sAmort sAmort.loan_term =
      sAmort.loan_amount *
        ((1 + sAmort.mortgage_rate / 12) ^ (sAmort.loan_term * 12) -
          (1 + sAmort.mortgage_rate) ^ sAmort.loan_term) :=
  c8_amortization sAmort (by norm_num [sAmort]) (by norm_num [sAmort])
    (by norm_num [sAmort])

/-- One band of the duty is monotone in property value when its rate is
nonnegative and its upper bound, if any, is at least its lower bound. -/
lemma bandDuty_mono {v w : ℚ} (b : Band) (hvw : v ≤ w) (hr : 0 ≤ b.rate)
    (hu : ∀ u, b.upper = some u → b.lower ≤ u) : bandDuty v b ≤ bandDuty w b := by
  obtain ⟨l, uo, r⟩ := b
  have hr2 : 0 ≤ r := hr
  cases uo with
  | some u =>
    have hlu : l ≤ u := hu u rfl
    rw [bandDuty_some, bandDuty_some]
    by_cases h1 : l < v
    · rw [if_pos h1, if_pos (lt_of_lt_of_le h1 hvw)]
      exact mul_le_mul_of_nonneg_right (min_le_min (by linarith) le_rfl) hr2
    · rw [if_neg h1]
      by_cases h2 : l < w
      · rw [if_pos h2]
        exact mul_nonneg (le_min (by linarith) (by linarith)) hr2
      · rw [if_neg h2]
  | none =>
    rw [bandDuty_none, bandDuty_none]
    by_cases h1 : l < v
    · rw [if_pos h1, if_pos (lt_of_lt_of_le h1 hvw)]
      exact mul_le_mul_of_nonneg_right (by linarith) hr2
    · rw [if_neg h1]
      by_cases h2 : l < w
      · rw [if_pos h2]
        exact mul_nonneg (by linarith) hr2
      · rw [if_neg h2]

/-- The summed duty over a band list is monotone when every band is well
formed in the sense of bandDuty_mono. -/
lemma dutyList_mono {v w : ℚ} (hvw : v ≤ w) :
    ∀ bs : List Band,
      (∀ b ∈ bs, 0 ≤ b.rate ∧ ∀ u, b.upper = some u → b.lower ≤ u) →
      (bs.map (bandDuty v)).sum ≤ (bs.map (bandDuty w)).sum
  | [], _ => le_rfl
  | b :: bs, h => by
    simp only [List.map_cons, List.sum_cons]
    have hb := h b (List.mem_cons_self b bs)
    exact add_le_add (bandDuty_mono b hvw hb.1 hb.2)
      (dutyList_mono hvw bs fun x hx => h x (List.mem_cons_of_mem b hx))

/-- Claim C9: stamp duty is monotone in property value for a fixed
second-home flag. -/
theorem c9_stamp_duty_monotone (v w : ℚ) (flag : Bool) (h0 : 0 ≤ v) (hvw : v < w) :
    calculate_stamp_duty v flag ≤ calculate_stamp_duty w flag := by
  unfold calculate_stamp_duty
  apply dutyList_mono (le_of_lt hvw)
  cases flag
  · intro b hb
    simp only [Bool.false_eq_true, if_false, standardBands, List.mem_cons,
      List.not_mem_nil, or_false] at hb
    rcases hb with rfl | rfl | rfl | rfl
    · exact ⟨le_rfl, fun u hu => by injection hu with h; subst h; norm_num⟩
    · exact ⟨by norm_num, fun u hu => by injection hu with h; subst h; norm_num⟩
    · exact ⟨by norm_num, fun u hu => by injection hu with h; subst h; norm_num⟩
    · exact ⟨by norm_num, fun u hu => Option.noConfusion hu⟩
  · intro b hb
    simp only [if_true, secondHomeBands, List.mem_cons, List.not_mem_nil, or_false] at hb
    rcases hb with rfl | rfl | rfl
    · exact ⟨by norm_num, fun u hu => by injection hu with h; subst h; norm_num⟩
    · exact ⟨by norm_num, fun u hu => by injection hu with h; subst h; norm_num⟩
    · exact ⟨by norm_num, fun u hu => Option.noConfusion hu⟩

/-- Witness for c9_stamp_duty_monotone at 200000 and 300000, standard table. -/
theorem c9_stamp_duty_monotone_witness :
    calculate_stamp_duty 200000 false ≤ calculate_stamp_duty 300000 false :=
  c9_stamp_duty_monotone 200000 300000 false (by norm_num) (by norm_num)

/-- Claim C10: there is a property value (4000000) at which the standard table
charges strictly more than the second-home table, because the standard top
marginal rate 12 percent exceeds the second-home top rate 10 percent, even
though for every positive value up to 250000 the second-home duty is strictly
higher. -/
theorem c10_top_band_crossover :
    (∃ v : ℚ, 0 < v ∧ calculate_stamp_duty v true < calculate_stamp_duty v false) ∧
    ∀ v : ℚ, 0 < v → v ≤ 250000 →
      calculate_stamp_duty v false < calculate_stamp_duty v true := by
  constructor
  · refine ⟨4000000, by norm_num, ?_⟩
    norm_num [calculate_stamp_duty, standardBands, secondHomeBands, bandDuty_some,
      bandDuty_none]
  · intro v hv hle
    have hstd : calculate_stamp_duty v false = 0 := by
      simp only [calculate_stamp_duty, Bool.false_eq_true, if_false, standardBands,
        List.map_cons, List.map_nil, List.sum_cons, List.sum_nil, bandDuty_some,
        bandDuty_none]
      rw [if_neg (by linarith : ¬(250001 : ℚ) < v),
        if_neg (by linarith : ¬(925001 : ℚ) < v),
        if_neg (by linarith : ¬(1500001 : ℚ) < v), if_pos (by linarith : (0 : ℚ) < v)]
      ring
    rw [hstd]
    simp only [calculate_stamp_duty, if_true, secondHomeBands, List.map_cons,
      List.map_nil, List.sum_cons, List.sum_nil, bandDuty_some, bandDuty_none]
    rw [if_pos (by linarith : (0 : ℚ) < v), if_neg (by linarith : ¬(250001 : ℚ) < v)]
    have h1 : 0 < min (v - 0) (125000 - (0 : ℚ)) * (5 / 100) := by
      apply mul_pos _ (by norm_num)
      exact lt_min (by linarith) (by norm_num)
    by_cases h2 : (125001 : ℚ) < v
    · rw [if_pos h2]
      have h3 : 0 ≤ min (v - 125001) (250000 - (125001 : ℚ)) * (7 / 100) :=
        mul_nonneg (le_min (by linarith) (by norm_num)) (by norm_num)
      linarith
    · rw [if_neg h2]
      linarith

/-- Witness for the universal part of c10_top_band_crossover at value 100. -/
theorem c10_top_band_crossover_witness :
    calculate_stamp_duty 100 false < calculate_stamp_duty 100 true :=
  c10_top_band_crossover.2 100 (by norm_num) (by norm_num)
